import Mathlib

/-!
Verification of the cosmic-cli orchestration tool (src/cosmic/cli.py).

The Python source shells out to external tools (kind, docker, kubectl, helm).
We embed it shallowly: each CLI function becomes a computation in a monad `M`
that threads an explicit external-world state and records a trace of events
(external commands executed, messages echoed, files written).  The only
non-local control flow in the source is raising/catching exceptions
(click.Abort, subprocess.CalledProcessError, bare except), modelled by the
`Except PyErr` component of `M` together with catch combinators that mirror
each `except` clause of the source.

The external collaborators themselves are not part of the repository; their
behaviour is modelled by an executor of type `Exec`.  `cosmicExec` is the
concrete environment model used for claims about specific scenarios; claims
about `run_command` itself are proved for every executor.
-/

set_option maxRecDepth 4000

namespace Cosmic

/-- Exception kinds that can flow through the embedded code: `abort` models
click.Abort, `calledProcessError` models subprocess.CalledProcessError,
`parseError` models json/key errors raised while inspecting command output,
and `systemExit` models SystemExit as raised by click's Command.main in
standalone mode (argv usage errors exit with 2, a caught Abort exits with 1,
normal completion exits with 0). -/
inductive PyErr where
  | abort
  | calledProcessError
  | parseError
  | systemExit (code : Nat)
deriving DecidableEq, Repr

/-- Observable effects of the tool: an external command execution (with the
shell flag passed to subprocess.run), a click.echo message, and a local file
write (content omitted; only the claims-relevant identity of the file). -/
inductive Event where
  | exec (cmd : String) (shell : Bool)
  | echo (msg : String)
  | write (file : String)
deriving DecidableEq, Repr

/-- Result of subprocess.run as seen by the environment model. -/
structure ProcOutcome where
  exitcode : Nat
  stdout : String
  stderr : String
deriving DecidableEq, Repr

/-- The subprocess.CompletedProcess fields the source reads. -/
structure CompletedProcess where
  stdout : String
  stderr : String
deriving DecidableEq, Repr

/-- Lifecycle state of the kind-registry docker container. -/
inductive ContainerState where
  | absent
  | running
  | stopped
deriving DecidableEq, Repr

/-- External state owned by the collaborators (container runtime, cluster
manager, cluster API): tools resolvable on PATH, the kind cluster listing,
the registry container, whether the registry is connected to the kind
network, existing namespaces, the raw stdout of kind get nodes, and the
initial ArgoCD admin secret (none = retrieval fails). -/
structure World where
  tools : List String
  clusters : List String
  registry : ContainerState
  networkConnected : Bool
  namespaces : List String
  nodesOut : String
  argocdSecret : Option String
deriving DecidableEq, Repr

/-- State-and-trace monad with Python-exception escape. -/
abbrev M (α : Type) : Type := World → Except PyErr α × World × List Event

def M.pure {α : Type} (a : α) : M α := fun w => (Except.ok a, w, [])

def M.bind {α β : Type} (x : M α) (f : α → M β) : M β := fun w =>
  match (x w).1 with
  | Except.ok a =>
    ((f a (x w).2.1).1, (f a (x w).2.1).2.1, (x w).2.2 ++ (f a (x w).2.1).2.2)
  | Except.error e => (Except.error e, (x w).2.1, (x w).2.2)

instance instMonadM : Monad M where
  pure := M.pure
  bind := M.bind

def echo (msg : String) : M Unit := fun w => (Except.ok (), w, [Event.echo msg])

/-- Models `open(name, "w").write(content)`; the trace records the file. -/
def writeLocalFile (name : String) (_content : String) : M Unit := fun w =>
  (Except.ok (), w, [Event.write name])

def M.throw {α : Type} (e : PyErr) : M α := fun w => (Except.error e, w, [])

/-- Models a bare `except:` (and `except Exception`): every exception kind is
caught; effects performed before the raise are kept. -/
def M.catchAll {α : Type} (x : M α) (h : PyErr → M α) : M α := fun w =>
  match (x w).1 with
  | Except.ok a => (Except.ok a, (x w).2.1, (x w).2.2)
  | Except.error e =>
    ((h e (x w).2.1).1, (h e (x w).2.1).2.1, (x w).2.2 ++ (h e (x w).2.1).2.2)

def PyErr.isAbort : PyErr → Bool
  | PyErr.abort => true
  | _ => false

/-- Models `except click.Abort:`: only an abort is caught, anything else
propagates. -/
def M.catchAbort {α : Type} (x : M α) (h : Unit → M α) : M α := fun w =>
  match (x w).1 with
  | Except.ok a => (Except.ok a, (x w).2.1, (x w).2.2)
  | Except.error e =>
    if e.isAbort then
      ((h () (x w).2.1).1, (h () (x w).2.1).2.1, (x w).2.2 ++ (h () (x w).2.1).2.2)
    else (Except.error e, (x w).2.1, (x w).2.2)

/-- Models `try: x; except click.Abort: ...` where the caller inspects the
outcome: the result value records whether the body escaped with an error. -/
def M.attempt {α : Type} (x : M α) : M (Except PyErr α) := fun w =>
  ((Except.ok (x w).1 : Except PyErr (Except PyErr α)), (x w).2.1, (x w).2.2)

/-- An environment model: what each external command does to the world. -/
abbrev Exec : Type := String → Bool → World → ProcOutcome × World

/-- Embedding of `run_command` (cli.py lines 24-35): run the external
command; on non-zero exit echo the command and its stderr, then raise
click.Abort.  On success return the captured output. -/
def run_command (E : Exec) (command : String) (shell : Bool) : M CompletedProcess :=
  fun w =>
    if (E command shell w).1.exitcode = 0 then
      (Except.ok { stdout := (E command shell w).1.stdout,
                   stderr := (E command shell w).1.stderr },
       (E command shell w).2, [Event.exec command shell])
    else
      (Except.error PyErr.abort, (E command shell w).2,
       [Event.exec command shell,
        Event.echo ("Error executing command: " ++ command),
        Event.echo ("Error output: " ++ (E command shell w).1.stderr)])

/-- Python str(e) for the exceptions the source interpolates into messages;
str(click.Abort()) is the empty string. -/
def pyStr : PyErr → String
  | PyErr.abort => ""
  | PyErr.calledProcessError => "CalledProcessError"
  | PyErr.parseError => "ParseError"
  | PyErr.systemExit code => toString code

def reg_name : String := "kind-registry"

def reg_port : String := "5001"

def cluster_name : String := "kind"

def cmdWhich (tool : String) : String := "which " ++ tool

def cmdGetClusters : String := "kind get clusters"

def cmdDeleteCluster : String := "kind delete cluster --name kind"

def cmdInspectRegistry : String := "docker inspect kind-registry"

def cmdStopRegistry : String := "docker stop kind-registry"

def cmdRmRegistry : String := "docker rm kind-registry"

def cmdRunRegistry : String :=
  "docker run -d --restart=always -p 127.0.0.1:" ++ reg_port ++
    ":5000 --network bridge --name " ++ reg_name ++ " registry:2"

def cmdCreateCluster : String := "kind create cluster --config kind-config.yaml"

def cmdGetNodes : String := "kind get nodes"

def registry_dir : String := "/etc/containerd/certs.d/localhost:" ++ reg_port

def hosts_toml : String := "[host.\"http://" ++ reg_name ++ ":5000\"]"

/-- Per-node mkdir command of configure_registry, in the shape
prefix ++ (node ++ suffix) so the node name stays a visible suffix. -/
def cmdNodeMkdir (node : String) : String :=
  "docker exec " ++ (node ++ (" mkdir -p " ++ registry_dir))

def teePrefix : String := "echo \"" ++ hosts_toml ++ "\" | docker exec -i "

def cmdNodeTee (node : String) : String :=
  teePrefix ++ (node ++ (" tee " ++ (registry_dir ++ "/hosts.toml")))

def cmdNetworkConnect : String := "docker network connect kind " ++ reg_name

def cmdApplyRegistryConfig : String := "kubectl apply -f registry-config.yaml"

def cmdDockerPullCilium : String := "docker pull quay.io/cilium/cilium:v1.17.1"

def cmdKindLoadCilium : String := "kind load docker-image quay.io/cilium/cilium:v1.17.1"

def cmdHelmRepoAdd : String := "helm repo add cilium https://helm.cilium.io/"

def cmdHelmInstallCilium : String :=
  "helm upgrade --install cilium cilium/cilium --version 1.17.1 " ++
    "--namespace kube-system --set image.pullPolicy=IfNotPresent " ++
    "--set ipam.mode=kubernetes --set cni.install=true " ++
    "--set cni.chainingMode=generic-veth --set hubble.relay.enabled=true " ++
    "--set hubble.ui.enabled=true --set kubeProxyReplacement=true " ++
    "--set loadBalancer.l7.backend=envoy --set arp.enabled=true"

def cmdCiliumRollout : String := "kubectl -n kube-system rollout status daemonset/cilium"

def cmdMultusApply : String :=
  "kubectl apply -f https://raw.githubusercontent.com/k8snetworkplumbingwg/" ++
    "multus-cni/master/deployments/multus-daemonset.yml"

def cmdMultusRollout : String := "kubectl -n kube-system rollout status daemonset/kube-multus-ds"

def cmdGetNamespace (nspace : String) : String := "kubectl get namespace " ++ nspace

def cmdCreateNamespace (nspace : String) : String := "kubectl create namespace " ++ nspace

def cmdArgocdApply : String :=
  "kubectl apply -f https://raw.githubusercontent.com/argoproj/argo-cd/" ++
    "stable/manifests/install.yaml -n argocd"

def cmdArgocdRollout : String := "kubectl -n argocd rollout status deployment/argocd-server"

def cmdArgocdPatch : String :=
  "kubectl patch svc argocd-server -n argocd -p " ++
    "\x27\x7b\"spec\": \x7b\"type\": \"LoadBalancer\"\x7d\x7d\x27"

def cmdArgocdSecret : String :=
  "kubectl -n argocd get secret argocd-initial-admin-secret " ++
    "-o jsonpath=\x27\x7b.data.password\x7d\x27 | base64 -d"

def cmdGetCiliumPods : String := "kubectl get pods -n kube-system -l k8s-app=cilium"

def cmdGetMultusPods : String := "kubectl get pods -n kube-system -l app=multus"

def cmdPortForward : String := "kubectl port-forward svc/argocd-server -n argocd 8080:443"

def listPrefixEq : List Char → List Char → Bool
  | [], _ => true
  | _ :: _, [] => false
  | a :: as, b :: bs => a == b && listPrefixEq as bs

def isSubstringData (pat : List Char) : List Char → Bool
  | [] => listPrefixEq pat []
  | c :: rest => listPrefixEq pat (c :: rest) || isSubstringData pat rest

/-- Python `needle in hay` on strings: substring containment. -/
def isSubstring (needle hay : String) : Bool :=
  isSubstringData needle.data hay.data

/-- Canonical stdout of docker inspect for a running container in the
environment model. -/
def inspectRunningOut : String :=
  "[\x7b\"State\": \x7b\"Running\": true\x7d\x7d]"

/-- Canonical stdout of docker inspect for a stopped container in the
environment model. -/
def inspectStoppedOut : String :=
  "[\x7b\"State\": \x7b\"Running\": false\x7d\x7d]"

/-- Models `json.loads(stdout)` followed by `info[0]["State"]["Running"]`
on the canonical inspect outputs the environment model produces; `none`
models a json/key error (raised, then caught by cleanup's bare except). -/
def inspectRunning (s : String) : Option Bool :=
  if s = inspectRunningOut then some true
  else if s = inspectStoppedOut then some false
  else none

/-- Embedding of `create_namespace_if_not_exists` (cli.py lines 8-22).  The
`except subprocess.CalledProcessError` branch is kept exactly as written in
the source even though `run_command` only ever raises click.Abort, so that
branch is unreachable; an abort from the probe lands in the
`except Exception` branch, which echoes and re-raises click.Abort. -/
def create_namespace_if_not_exists (E : Exec) (nspace : String) : M Unit :=
  M.catchAll
    (do
      let _ ← run_command E (cmdGetNamespace nspace) false
      pure ())
    (fun e =>
      match e with
      | PyErr.calledProcessError => do
        let _ ← run_command E (cmdCreateNamespace nspace) false
        echo ("Created namespace " ++ nspace)
      | _ => do
        echo ("Unexpected error: " ++ pyStr e)
        M.throw PyErr.abort)

/-- Embedding of `check_prerequisites`'s loop body: try `which tool`; on any
failure echo which tool is missing and raise click.Abort. -/
def checkTool (E : Exec) (tool : String) : M Unit :=
  M.catchAll
    (do
      let _ ← run_command E (cmdWhich tool) false
      pure ())
    (fun _ => do
      echo ("Error: " ++ tool ++ " is not installed or not in PATH")
      M.throw PyErr.abort)

def forEachTool (E : Exec) : List String → M Unit
  | [] => M.pure ()
  | tool :: rest => do
    checkTool E tool
    forEachTool E rest

def required_tools : List String := ["kind", "docker", "kubectl", "helm"]

/-- Embedding of `check_prerequisites` (cli.py lines 37-45). -/
def check_prerequisites (E : Exec) : M Unit :=
  forEachTool E required_tools

/-- Embedding of the `check` command (cli.py lines 52-59): note that it
catches click.Abort itself and reports via a message, so it never lets the
abort escape. -/
def check (E : Exec) : M Unit :=
  M.catchAbort
    (do
      check_prerequisites E
      echo "✅ All prerequisites are installed!")
    (fun _ => echo "❌ Prerequisites check failed")

/-- Embedding of the `cleanup` command (cli.py lines 61-84). -/
def cleanup (E : Exec) : M Unit := do
  let result ← run_command E cmdGetClusters false
  if isSubstring cluster_name result.stdout then do
    echo ("Deleting existing Kind cluster \x27" ++ cluster_name ++ "\x27...")
    let _ ← run_command E cmdDeleteCluster false
    pure ()
  M.catchAll
    (do
      let docker_inspect ← run_command E cmdInspectRegistry false
      match inspectRunning docker_inspect.stdout with
      | some true => do
        echo ("Deleting existing registry container \x27" ++ reg_name ++ "\x27...")
        let _ ← run_command E cmdStopRegistry false
        let _ ← run_command E cmdRmRegistry false
        pure ()
      | some false => pure ()
      | none => M.throw PyErr.parseError)
    (fun _ => M.pure ())
  echo "✅ Cleanup completed!"

/-- Embedding of the `setup_registry` command (cli.py lines 86-99). -/
def setup_registry (E : Exec) : M Unit := do
  echo "Setting up local registry..."
  let _ ← run_command E cmdRunRegistry true
  echo "✅ Registry setup completed!"

def cluster_config : String :=
  "kind: Cluster ...multi-node config with disableDefaultCNI and containerd registry patch..."

/-- Embedding of the `create_cluster` command (cli.py lines 101-131). -/
def create_cluster (E : Exec) : M Unit := do
  echo "Creating Kind cluster..."
  writeLocalFile "kind-config.yaml" cluster_config
  let _ ← run_command E cmdCreateCluster false
  echo "✅ Cluster created successfully!"

/-- Body of configure_registry's per-node loop (cli.py lines 143-147). -/
def configureNode (E : Exec) (node : String) : M Unit := do
  let _ ← run_command E (cmdNodeMkdir node) true
  let _ ← run_command E (cmdNodeTee node) true
  pure ()

def configureNodes (E : Exec) : List String → M Unit
  | [] => M.pure ()
  | node :: rest => do
    configureNode E node
    configureNodes E rest

def registry_config : String :=
  "ConfigMap local-registry-hosting in kube-public pointing at localhost:5001"

/-- Embedding of the `configure_registry` command (cli.py lines 133-171). -/
def configure_registry (E : Exec) : M Unit := do
  echo "Configuring registry in the cluster..."
  let nodesRes ← run_command E cmdGetNodes false
  configureNodes E (nodesRes.stdout.trim.splitOn "\n")
  M.catchAll
    (do
      let _ ← run_command E cmdNetworkConnect true
      pure ())
    (fun _ => echo "Registry already connected to network")
  writeLocalFile "registry-config.yaml" registry_config
  let _ ← run_command E cmdApplyRegistryConfig false
  echo "✅ Registry configured successfully!"

/-- Embedding of the `install_cilium` command (cli.py lines 173-202). -/
def install_cilium (E : Exec) : M Unit := do
  echo "Installing Cilium..."
  let _ ← run_command E cmdDockerPullCilium false
  let _ ← run_command E cmdKindLoadCilium false
  let _ ← run_command E cmdHelmRepoAdd false
  let _ ← run_command E cmdHelmInstallCilium true
  let _ ← run_command E cmdCiliumRollout false
  echo "✅ Cilium installed successfully!"

/-- Embedding of the `install_multus` command (cli.py lines 204-216). -/
def install_multus (E : Exec) : M Unit := do
  echo "Installing Multus..."
  let _ ← run_command E cmdMultusApply false
  let _ ← run_command E cmdMultusRollout false
  echo "✅ Multus installed successfully!"

/-- Embedding of the `install_argocd` command (cli.py lines 218-260). -/
def install_argocd (E : Exec) : M Unit := do
  echo "Installing ArgoCD..."
  create_namespace_if_not_exists E "argocd"
  let _ ← run_command E cmdArgocdApply false
  let _ ← run_command E cmdArgocdRollout false
  let _ ← run_command E cmdArgocdPatch true
  M.catchAll
    (do
      let password ← run_command E cmdArgocdSecret true
      echo ("\n📝 Initial admin password: " ++ password.stdout.trim))
    (fun _ => echo "\n⚠️  Could not retrieve initial admin password")
  echo "✅ ArgoCD installed successfully!"
  echo "\nTo access ArgoCD UI, run:"
  echo "cosmic port-forward-argocd"

/-- Embedding of the `verify` command (cli.py lines 278-293). -/
def verify (E : Exec) : M Unit := do
  echo "Verifying installation..."
  let cilium_pods ← run_command E cmdGetCiliumPods false
  echo "\nCilium pods:"
  echo cilium_pods.stdout
  let multus_pods ← run_command E cmdGetMultusPods false
  echo "\nMultus pods:"
  echo multus_pods.stdout
  echo "✅ Verification completed!"

def startText (name : String) : String := "\n📍 Starting " ++ name ++ "..."

def failText (name : String) : String := "❌ Setup failed during " ++ name

def completeText : String := "\n✨ Complete setup finished successfully!"

/-- Embedding of the loop of `setup_all` (cli.py lines 309-317): announce
each step, run it, catch click.Abort at the step boundary (report the failing
step name and stop), otherwise continue; after the last step report
completion. -/
def setup_all_loop : List (String × M Unit) → M Unit
  | [] => echo completeText
  | (step_name, command) :: rest => do
    echo (startText step_name)
    let r ← M.attempt command
    match r with
    | Except.ok _ => setup_all_loop rest
    | Except.error PyErr.abort => echo (failText step_name)
    | Except.error e => M.throw e

/-- The callbacks behind the step names of cli.py lines 298-307: `check`,
`cleanup`, ... are the bodies of the decorated functions.  In the source the
module-level names are not these callbacks but click.Command objects wrapping
them (the @cli.command() decorator rebinds each name), so setup_all's loop
does not invoke these callbacks directly — see `pipelineSteps` below. -/
def pipelineCallbacks (E : Exec) : List (String × M Unit) :=
  [("Prerequisites Check", check E),
   ("Cleanup", cleanup E),
   ("Setup Registry", setup_registry E),
   ("Create Cluster", create_cluster E),
   ("Configure Registry", configure_registry E),
   ("Install Cilium", install_cilium E),
   ("Install Multus", install_multus E),
   ("Verify Installation", verify E)]

/-- The usage-error message click prints when a zero-argument command is
invoked with leftover argv tokens. -/
def usageErrorText (argv : List String) : String :=
  "Error: Got unexpected extra argument (" ++
    (String.intercalate " " argv ++ ")")

/-- Models invoking a click.Command object, i.e. Command.__call__, which is
Command.main() in standalone mode: it re-parses the live process argv
(sys.argv[1:]) rather than simply running the callback.  Every command of
this CLI declares no arguments, so a non-empty argv is a usage error: click
prints it and raises SystemExit(2) without invoking the callback.  With an
empty argv the callback runs, a click.Abort escaping it is caught by main
itself (prints Aborted! and raises SystemExit(1)), and normal completion
ends with ctx.exit, raising SystemExit(0) — standalone mode never returns
control to the caller without a SystemExit. -/
def clickCommandMain (argv : List String) (callback : M Unit) : M Unit :=
  if argv.isEmpty then do
    M.catchAbort callback
      (fun _ => do
        echo "Aborted!"
        M.throw (PyErr.systemExit 1))
    M.throw (PyErr.systemExit 0)
  else do
    echo (usageErrorText argv)
    M.throw (PyErr.systemExit 2)

/-- The step list exactly as setup_all iterates it (cli.py lines 298-307):
each name is paired with the click.Command object bound to the module-level
name, whose invocation `command()` in the loop body goes through
Command.main on the live process argv. -/
def pipelineSteps (E : Exec) (argv : List String) : List (String × M Unit) :=
  (pipelineCallbacks E).map (fun p => (p.1, clickCommandMain argv p.2))

/-- Embedding of the `setup_all` command (cli.py lines 295-317), including
the click.Command invocation semantics of each `command()` call; `argv` is
the live sys.argv[1:] of the process (for a `cosmic setup-all` run this is
["setup-all"]). -/
def setup_all (E : Exec) (argv : List String) : M Unit :=
  setup_all_loop (pipelineSteps E argv)

/-- Specification device: run a prefix of named steps with their start
announcements, with no failure handling — used to state that the first k
steps of the pipeline all succeed. -/
def runList : List (String × M Unit) → M Unit
  | [] => M.pure ()
  | (step_name, command) :: rest => do
    echo (startText step_name)
    command
    runList rest

/-- The external commands the environment model interprets specially; every
other command succeeds with empty output and leaves the world unchanged. -/
def specialCmds : List String :=
  [cmdWhich "kind", cmdWhich "docker", cmdWhich "kubectl", cmdWhich "helm",
   cmdGetClusters, cmdDeleteCluster, cmdInspectRegistry, cmdStopRegistry,
   cmdRmRegistry, cmdRunRegistry, cmdCreateCluster, cmdGetNodes,
   cmdNetworkConnect, cmdGetNamespace "argocd", cmdCreateNamespace "argocd",
   cmdArgocdSecret]

def okOut : ProcOutcome := { exitcode := 0, stdout := "", stderr := "" }

def whichOut (tool : String) (w : World) : ProcOutcome × World :=
  if w.tools.contains tool then
    ({ exitcode := 0, stdout := "/usr/bin/" ++ tool, stderr := "" }, w)
  else
    ({ exitcode := 1, stdout := "", stderr := "" }, w)

/-- Dispatch for the specially-modelled commands. -/
def cosmicDispatch (cmd : String) (w : World) : ProcOutcome × World :=
  if cmd = cmdWhich "kind" then whichOut "kind" w
  else if cmd = cmdWhich "docker" then whichOut "docker" w
  else if cmd = cmdWhich "kubectl" then whichOut "kubectl" w
  else if cmd = cmdWhich "helm" then whichOut "helm" w
  else if cmd = cmdGetClusters then
    if w.tools.contains "kind" then
      ({ exitcode := 0, stdout := String.intercalate "\n" w.clusters, stderr := "" }, w)
    else
      ({ exitcode := 127, stdout := "", stderr := "kind: command not found" }, w)
  else if cmd = cmdDeleteCluster then
    (okOut, { w with clusters := w.clusters.erase "kind" })
  else if cmd = cmdInspectRegistry then
    match w.registry with
    | ContainerState.absent =>
      ({ exitcode := 1, stdout := "", stderr := "Error: No such object: kind-registry" }, w)
    | ContainerState.running => ({ exitcode := 0, stdout := inspectRunningOut, stderr := "" }, w)
    | ContainerState.stopped => ({ exitcode := 0, stdout := inspectStoppedOut, stderr := "" }, w)
  else if cmd = cmdStopRegistry then
    match w.registry with
    | ContainerState.running => (okOut, { w with registry := ContainerState.stopped })
    | _ => ({ exitcode := 1, stdout := "", stderr := "No such container: kind-registry" }, w)
  else if cmd = cmdRmRegistry then
    match w.registry with
    | ContainerState.stopped => (okOut, { w with registry := ContainerState.absent })
    | ContainerState.running =>
      ({ exitcode := 1, stdout := "", stderr := "cannot remove a running container" }, w)
    | ContainerState.absent =>
      ({ exitcode := 1, stdout := "", stderr := "No such container: kind-registry" }, w)
  else if cmd = cmdRunRegistry then
    match w.registry with
    | ContainerState.absent => (okOut, { w with registry := ContainerState.running })
    | _ =>
      ({ exitcode := 125, stdout := "",
         stderr := "Conflict. The container name kind-registry is already in use" }, w)
  else if cmd = cmdCreateCluster then
    (okOut, { w with clusters := "kind" :: w.clusters })
  else if cmd = cmdGetNodes then
    ({ exitcode := 0, stdout := w.nodesOut, stderr := "" }, w)
  else if cmd = cmdNetworkConnect then
    if w.networkConnected then
      ({ exitcode := 1, stdout := "",
         stderr := "endpoint with name kind-registry already exists in network kind" }, w)
    else (okOut, { w with networkConnected := true })
  else if cmd = cmdGetNamespace "argocd" then
    if w.namespaces.contains "argocd" then (okOut, w)
    else
      ({ exitcode := 1, stdout := "",
         stderr := "Error from server (NotFound): namespaces \"argocd\" not found" }, w)
  else if cmd = cmdCreateNamespace "argocd" then
    if w.namespaces.contains "argocd" then
      ({ exitcode := 1, stdout := "", stderr := "AlreadyExists" }, w)
    else (okOut, { w with namespaces := "argocd" :: w.namespaces })
  else if cmd = cmdArgocdSecret then
    match w.argocdSecret with
    | some p => ({ exitcode := 0, stdout := p, stderr := "" }, w)
    | none => ({ exitcode := 1, stdout := "", stderr := "Error from server (NotFound)" }, w)
  else (okOut, w)

/-- The concrete environment model: kind/docker/kubectl lifecycle commands
act on the world as the real tools do for the states the claims exercise;
all other commands (helm installs, manifest applies, rollout waits, per-node
execs) succeed without changing the modelled state. -/
def cosmicExec : Exec := fun cmd _shell w =>
  if cmd ∈ specialCmds then cosmicDispatch cmd w else (okOut, w)

def runResult {α : Type} (x : Except PyErr α × World × List Event) : Except PyErr α := x.1

def runWorld {α : Type} (x : Except PyErr α × World × List Event) : World := x.2.1

def runEvents {α : Type} (x : Except PyErr α × World × List Event) : List Event := x.2.2

/-- The external commands executed in a trace, in order. -/
def execCmds (evs : List Event) : List String :=
  evs.filterMap (fun e =>
    match e with
    | Event.exec c _ => some c
    | _ => none)

def pipelineNames : List String :=
  ["Prerequisites Check", "Cleanup", "Setup Registry", "Create Cluster",
   "Configure Registry", "Install Cilium", "Install Multus", "Verify Installation"]

/-- Recognizes the step-start announcement events of setup_all. -/
def isStart (e : Event) : Bool :=
  match e with
  | Event.echo m => pipelineNames.any (fun n => m == startText n)
  | _ => false

/-- The step-start announcements of a trace, in order: the observable record
of which pipeline steps began executing. -/
def startEvents (evs : List Event) : List Event :=
  evs.filter isStart

/-- Events of the configure_registry per-node loop. -/
def nodeEvents : List String → List Event
  | [] => []
  | node :: rest =>
    Event.exec (cmdNodeMkdir node) true :: Event.exec (cmdNodeTee node) true :: nodeEvents rest

/-- A benign external state: all tools installed, no cluster, no registry
container, argocd namespace present, a typical node listing, secret present. -/
def wBase : World :=
  { tools := ["kind", "docker", "kubectl", "helm"],
    clusters := [],
    registry := ContainerState.absent,
    networkConnected := false,
    namespaces := ["argocd"],
    nodesOut := "kind-control-plane\nkind-worker",
    argocdSecret := some "cGFzc3dvcmQ=" }

/-- World with the argocd namespace absent: the failing input for the
namespace-creation claim. -/
def wC2 : World := { wBase with namespaces := [] }

/-- World where the kind tool is missing from PATH: prerequisite check fails. -/
def wNoKind : World := { wBase with tools := ["docker", "kubectl", "helm"] }

/-- World with a stopped (but existing) registry container. -/
def wStopped : World := { wBase with registry := ContainerState.stopped }

/-- World where exactly helm is missing from PATH. -/
def wC5 : World := { wBase with tools := ["kind", "docker", "kubectl"] }

/-- World whose registry container is already connected to the kind network. -/
def wC6 : World := { wBase with networkConnected := true }

/-- World holding both a kind cluster and a running registry container. -/
def wC8 : World :=
  { wBase with clusters := ["kind"], registry := ContainerState.running,
               networkConnected := true }

/-- Events of a successful prerequisite check. -/
def evCheck : List Event :=
  [Event.exec (cmdWhich "kind") false, Event.exec (cmdWhich "docker") false,
   Event.exec (cmdWhich "kubectl") false, Event.exec (cmdWhich "helm") false,
   Event.echo "✅ All prerequisites are installed!"]

/-- Events of a successful registry setup. -/
def evSetupReg : List Event :=
  [Event.echo "Setting up local registry...", Event.exec cmdRunRegistry true,
   Event.echo "✅ Registry setup completed!"]

/-- Events of a successful cluster creation. -/
def evCreateCluster : List Event :=
  [Event.echo "Creating Kind cluster...", Event.write "kind-config.yaml",
   Event.exec cmdCreateCluster false, Event.echo "✅ Cluster created successfully!"]

/-- Events of a successful Cilium install. -/
def evCilium : List Event :=
  [Event.echo "Installing Cilium...", Event.exec cmdDockerPullCilium false,
   Event.exec cmdKindLoadCilium false, Event.exec cmdHelmRepoAdd false,
   Event.exec cmdHelmInstallCilium true, Event.exec cmdCiliumRollout false,
   Event.echo "✅ Cilium installed successfully!"]

/-- Events of a successful Multus install. -/
def evMultus : List Event :=
  [Event.echo "Installing Multus...", Event.exec cmdMultusApply false,
   Event.exec cmdMultusRollout false, Event.echo "✅ Multus installed successfully!"]

/-- Events of the verify step (empty pod listings in the model). -/
def evVerify : List Event :=
  [Event.echo "Verifying installation...", Event.exec cmdGetCiliumPods false,
   Event.echo "\nCilium pods:", Event.echo "",
   Event.exec cmdGetMultusPods false, Event.echo "\nMultus pods:",
   Event.echo "", Event.echo "✅ Verification completed!"]

attribute [simp] cmdWhich cmdGetClusters cmdDeleteCluster cmdInspectRegistry
  cmdStopRegistry cmdRmRegistry cmdRunRegistry cmdCreateCluster cmdGetNodes
  cmdNetworkConnect cmdGetNamespace cmdCreateNamespace cmdArgocdSecret
  cmdArgocdApply cmdArgocdRollout cmdArgocdPatch cmdDockerPullCilium
  cmdKindLoadCilium cmdHelmRepoAdd cmdHelmInstallCilium cmdCiliumRollout
  cmdMultusApply cmdMultusRollout cmdGetCiliumPods cmdGetMultusPods
  cmdApplyRegistryConfig cmdPortForward
  reg_name reg_port cluster_name specialCmds

@[simp] theorem M.bind_eq {α β : Type} (x : M α) (f : α → M β) :
    @Bind.bind M (@Monad.toBind M instMonadM) α β x f = M.bind x f := rfl

@[simp] theorem M.pure_eq {α : Type} (a : α) :
    @Pure.pure M (@Applicative.toPure M (@Monad.toApplicative M instMonadM)) α a =
      M.pure a := rfl

@[simp] theorem M.pure_apply {α : Type} (a : α) (w : World) :
    @Pure.pure M (@Applicative.toPure M (@Monad.toApplicative M instMonadM)) α a w =
      (Except.ok a, w, []) := rfl

@[simp] theorem M.pure_apply_proj1 {α : Type} (a : α) (w : World) :
    (M.pure a w).1 = Except.ok a := rfl

@[simp] theorem M.pure_apply_def {α : Type} (a : α) (w : World) :
    M.pure a w = (Except.ok a, w, []) := rfl

theorem run_command_result (E : Exec) (cmd : String) (sh : Bool) (w : World) :
    (run_command E cmd sh w).1 = Except.error PyErr.abort ∨
      ∃ cp, (run_command E cmd sh w).1 = Except.ok cp := by
  rcases hE : E cmd sh w with ⟨out, w1⟩
  by_cases h : out.exitcode = 0
  · exact Or.inr ⟨{ stdout := out.stdout, stderr := out.stderr },
      by simp [run_command, hE, h]⟩
  · exact Or.inl (by simp [run_command, hE, h])

/-- C4.  For every executor, every command and every world: on non-zero exit
the runner executes the command, echoes the command text and the captured
stderr, and escapes with the abort signal (an `Except.error`, not a returned
value — it propagates through `M.bind` unless a catch combinator intercepts
it); on zero exit it returns the captured stdout/stderr with only the
execution event and no abort. -/
theorem c4_run_command_spec (E : Exec) (cmd : String) (sh : Bool) (w : World) :
    ((E cmd sh w).1.exitcode ≠ 0 →
      run_command E cmd sh w =
        (Except.error PyErr.abort, (E cmd sh w).2,
         [Event.exec cmd sh,
          Event.echo ("Error executing command: " ++ cmd),
          Event.echo ("Error output: " ++ (E cmd sh w).1.stderr)])) ∧
    ((E cmd sh w).1.exitcode = 0 →
      run_command E cmd sh w =
        (Except.ok { stdout := (E cmd sh w).1.stdout, stderr := (E cmd sh w).1.stderr },
         (E cmd sh w).2, [Event.exec cmd sh])) := by
  rcases hE : E cmd sh w with ⟨out, w1⟩
  constructor
  · intro h
    simp only [hE] at h ⊢
    simp [run_command, hE, h]
  · intro h
    simp only [hE] at h ⊢
    simp [run_command, hE, h]

/-- Witness for C4 at a concrete failing command and a concrete succeeding
command of the environment model. -/
theorem c4_run_command_spec_witness :
    ((cosmicExec (cmdGetNamespace "argocd") false wC2).1.exitcode ≠ 0 ∧
      run_command cosmicExec (cmdGetNamespace "argocd") false wC2 =
        (Except.error PyErr.abort, (cosmicExec (cmdGetNamespace "argocd") false wC2).2,
         [Event.exec (cmdGetNamespace "argocd") false,
          Event.echo ("Error executing command: " ++ cmdGetNamespace "argocd"),
          Event.echo ("Error output: " ++
            (cosmicExec (cmdGetNamespace "argocd") false wC2).1.stderr)])) ∧
    ((cosmicExec cmdGetClusters false wBase).1.exitcode = 0 ∧
      run_command cosmicExec cmdGetClusters false wBase =
        (Except.ok { stdout := (cosmicExec cmdGetClusters false wBase).1.stdout,
                     stderr := (cosmicExec cmdGetClusters false wBase).1.stderr },
         (cosmicExec cmdGetClusters false wBase).2, [Event.exec cmdGetClusters false])) :=
  ⟨⟨by decide, (c4_run_command_spec cosmicExec (cmdGetNamespace "argocd") false wC2).1 (by decide)⟩,
   ⟨by decide, (c4_run_command_spec cosmicExec cmdGetClusters false wBase).2 (by decide)⟩⟩

theorem setup_all_loop_cons_ok {name : String} {c : M Unit}
    {rest : List (String × M Unit)} {w w1 : World} {ev1 : List Event}
    (h : c w = (Except.ok (), w1, ev1)) :
    setup_all_loop ((name, c) :: rest) w =
      ((setup_all_loop rest w1).1, (setup_all_loop rest w1).2.1,
       Event.echo (startText name) :: (ev1 ++ (setup_all_loop rest w1).2.2)) := by
  rcases hr : setup_all_loop rest w1 with ⟨r2, w2, ev2⟩
  simp [setup_all_loop, M.bind, echo, M.attempt, h, hr]

theorem setup_all_loop_cons_err {name : String} {c : M Unit}
    {rest : List (String × M Unit)} {w w1 : World} {ev1 : List Event}
    (h : c w = (Except.error PyErr.abort, w1, ev1)) :
    setup_all_loop ((name, c) :: rest) w =
      (Except.ok (), w1,
       Event.echo (startText name) :: (ev1 ++ [Event.echo (failText name)])) := by
  simp [setup_all_loop, M.bind, echo, M.attempt, h]

theorem runList_cons_ok {n0 : String} {c0 : M Unit} {t : List (String × M Unit)}
    {w wa : World} {eva : List Event}
    (hc : c0 w = (Except.ok (), wa, eva)) :
    runList ((n0, c0) :: t) w =
      ((runList t wa).1, (runList t wa).2.1,
       Event.echo (startText n0) :: (eva ++ (runList t wa).2.2)) := by
  rcases hr : runList t wa with ⟨rt, wt, evt⟩
  simp [runList, M.bind, echo, hc, hr]

theorem runList_cons_err {n0 : String} {c0 : M Unit} {t : List (String × M Unit)}
    {w wa : World} {eva : List Event} {e : PyErr}
    (hc : c0 w = (Except.error e, wa, eva)) :
    runList ((n0, c0) :: t) w = (Except.error e, wa, Event.echo (startText n0) :: eva) := by
  simp [runList, M.bind, echo, hc]

theorem loop_fail_after_prefix (l₁ : List (String × M Unit)) :
    ∀ (name : String) (c : M Unit) (l₂ : List (String × M Unit)) (w w1 : World)
      (ev1 : List Event) (w2 : World) (ev2 : List Event),
      runList l₁ w = (Except.ok (), w1, ev1) →
      c w1 = (Except.error PyErr.abort, w2, ev2) →
      setup_all_loop (l₁ ++ (name, c) :: l₂) w =
        (Except.ok (), w2,
         ev1 ++ (Event.echo (startText name) :: (ev2 ++ [Event.echo (failText name)]))) := by
  induction l₁ with
  | nil =>
    intro name c l₂ w w1 ev1 w2 ev2 h1 h2
    simp only [runList, M.pure, Prod.mk.injEq, true_and] at h1
    obtain ⟨hw, hev⟩ := h1
    subst hw
    subst hev
    rw [List.nil_append, setup_all_loop_cons_err h2, List.nil_append]
  | cons p t ih =>
    obtain ⟨n0, c0⟩ := p
    intro name c l₂ w w1 ev1 w2 ev2 h1 h2
    rcases hc : c0 w with ⟨e | u, wa, eva⟩
    · rw [runList_cons_err hc] at h1
      exact absurd h1 (by simp)
    · cases u
      rw [runList_cons_ok hc] at h1
      rcases hr : runList t wa with ⟨rt, wt, evt⟩
      rw [hr] at h1
      simp only [Prod.mk.injEq] at h1
      obtain ⟨hrt, hwt, hev⟩ := h1
      subst hwt
      subst hev
      rw [List.cons_append, setup_all_loop_cons_ok hc,
        ih name c l₂ wa wt evt w2 ev2 (by rw [hr, hrt]) h2]
      simp

theorem checkTool_result (E : Exec) (t : String) (w : World) :
    (checkTool E t w).1 = Except.ok () ∨ (checkTool E t w).1 = Except.error PyErr.abort := by
  rcases hb : run_command E ("which " ++ t) false w with ⟨e | cp, wb, evb⟩
  · right
    simp [checkTool, M.catchAll, M.bind, echo, M.throw, hb]
  · left
    simp [checkTool, M.catchAll, M.bind, M.pure, hb]

theorem forEachTool_result (E : Exec) (l : List String) : ∀ (w : World),
    (forEachTool E l w).1 = Except.ok () ∨
      (forEachTool E l w).1 = Except.error PyErr.abort := by
  induction l with
  | nil =>
    intro w
    left
    rfl
  | cons tool rest ih =>
    intro w
    rcases hct : checkTool E tool w with ⟨rc, wc, evc⟩
    have hres := checkTool_result E tool w
    rw [hct] at hres
    rcases hres with h | h
    · have h' : rc = Except.ok () := h
      subst h'
      rcases hrest : forEachTool E rest wc with ⟨rr, wr, evr⟩
      have hr := ih wc
      rw [hrest] at hr
      simp only [forEachTool, M.bind_eq, M.bind, hct, hrest]
      exact hr
    · have h' : rc = Except.error PyErr.abort := h
      subst h'
      right
      simp [forEachTool, M.bind, hct]

/-- The `check` command never lets the abort escape: it catches click.Abort
itself (cli.py lines 55-59), so a prerequisites failure cannot stop the
pipeline. -/
theorem check_never_aborts (E : Exec) (w : World) : (check E w).1 = Except.ok () := by
  rcases hf : forEachTool E required_tools w with ⟨rf, wf, evf⟩
  have hres := forEachTool_result E required_tools w
  rw [hf] at hres
  rcases hres with h | h
  · have h' : rf = Except.ok () := h
    subst h'
    simp [check, check_prerequisites, M.catchAbort, M.bind, echo, hf]
  · have h' : rf = Except.error PyErr.abort := h
    subst h'
    simp [check, check_prerequisites, M.catchAbort, M.bind, echo, hf, PyErr.isAbort]

/-- C2 (code bug).  With the argocd namespace absent, the namespace probe
exits non-zero, run_command converts that into click.Abort, and
create_namespace_if_not_exists lands in its `except Exception` branch — not
the `except CalledProcessError` branch its own comment documents as the
namespace-not-found path.  The install aborts: the create-namespace command
is never executed, the manifest is never applied, and the step reports
"Unexpected error: " instead of creating the namespace. -/
theorem c2_namespace_absent_aborts :
    runResult (install_argocd cosmicExec wC2) = Except.error PyErr.abort ∧
      (runEvents (install_argocd cosmicExec wC2)).contains
        (Event.exec (cmdCreateNamespace "argocd") false) = false ∧
      (runEvents (install_argocd cosmicExec wC2)).contains
        (Event.exec cmdArgocdApply false) = false ∧
      (runEvents (install_argocd cosmicExec wC2)).contains
        (Event.echo "Unexpected error: ") = true := by
  refine ⟨rfl, rfl, rfl, rfl⟩

/-- C7.  When the argocd namespace already exists, install_argocd issues no
namespace-creation command, still applies the controller manifest, and still
attempts the initial-credential retrieval; the step succeeds. -/
theorem c7_namespace_exists_skips_creation (w : World)
    (hns : "argocd" ∈ w.namespaces) :
    runResult (install_argocd cosmicExec w) = Except.ok () ∧
      Event.exec (cmdCreateNamespace "argocd") false ∉
        runEvents (install_argocd cosmicExec w) ∧
      Event.exec cmdArgocdApply false ∈ runEvents (install_argocd cosmicExec w) ∧
      Event.exec cmdArgocdSecret true ∈ runEvents (install_argocd cosmicExec w) := by
  rcases hsec : w.argocdSecret with _ | p <;>
    simp [install_argocd, create_namespace_if_not_exists, run_command, cosmicExec,
      cosmicDispatch, okOut, M.catchAll, M.bind, M.pure, M.throw, echo,
      runResult, runEvents, hns, hsec]

/-- Witness for C7 at the benign world. -/
theorem c7_namespace_exists_skips_creation_witness :
    "argocd" ∈ wBase.namespaces ∧
      (runResult (install_argocd cosmicExec wBase) = Except.ok () ∧
        Event.exec (cmdCreateNamespace "argocd") false ∉
          runEvents (install_argocd cosmicExec wBase) ∧
        Event.exec cmdArgocdApply false ∈ runEvents (install_argocd cosmicExec wBase) ∧
        Event.exec cmdArgocdSecret true ∈ runEvents (install_argocd cosmicExec wBase)) :=
  ⟨by decide, c7_namespace_exists_skips_creation wBase (by decide)⟩

/-- C5.  If every required tool (kind, docker, kubectl, helm) resolves on
the search path the prerequisite check succeeds; if exactly one tool is
absent the check aborts and the tool-missing error message names exactly
that tool (its message is emitted, no other tool's message is). -/
theorem c5_check_prerequisites (w : World) :
    ((∀ t ∈ required_tools, t ∈ w.tools) →
      (check_prerequisites cosmicExec w).1 = Except.ok ()) ∧
    (∀ t ∈ required_tools, t ∉ w.tools →
      (∀ u ∈ required_tools, u ≠ t → u ∈ w.tools) →
      (check_prerequisites cosmicExec w).1 = Except.error PyErr.abort ∧
        Event.echo ("Error: " ++ t ++ " is not installed or not in PATH") ∈
          runEvents (check_prerequisites cosmicExec w) ∧
        ∀ u ∈ required_tools, u ≠ t →
          Event.echo ("Error: " ++ u ++ " is not installed or not in PATH") ∉
            runEvents (check_prerequisites cosmicExec w)) := by
  constructor
  · intro hall
    have h1 : "kind" ∈ w.tools := hall "kind" (by decide)
    have h2 : "docker" ∈ w.tools := hall "docker" (by decide)
    have h3 : "kubectl" ∈ w.tools := hall "kubectl" (by decide)
    have h4 : "helm" ∈ w.tools := hall "helm" (by decide)
    simp [check_prerequisites, forEachTool, checkTool, required_tools, M.catchAll,
      M.bind, M.pure, M.throw, echo, run_command, cosmicExec, cosmicDispatch,
      whichOut, okOut, h1, h2, h3, h4]
  · intro t ht hmiss hother
    simp only [required_tools, List.mem_cons, List.not_mem_nil, or_false] at ht
    rcases ht with rfl | rfl | rfl | rfl
    · have h2 : "docker" ∈ w.tools := hother "docker" (by decide) (by decide)
      have h3 : "kubectl" ∈ w.tools := hother "kubectl" (by decide) (by decide)
      have h4 : "helm" ∈ w.tools := hother "helm" (by decide) (by decide)
      refine ⟨?_, ?_, ?_⟩
      · simp [check_prerequisites, forEachTool, checkTool, required_tools, M.catchAll,
          M.bind, M.pure, M.throw, echo, run_command, cosmicExec, cosmicDispatch,
          whichOut, okOut, hmiss]
      · simp [runEvents, check_prerequisites, forEachTool, checkTool, required_tools,
          M.catchAll, M.bind, M.pure, M.throw, echo, run_command, cosmicExec,
          cosmicDispatch, whichOut, okOut, hmiss]
      · intro u hu hne
        simp only [required_tools, List.mem_cons, List.not_mem_nil, or_false] at hu
        rcases hu with rfl | rfl | rfl | rfl
        · exact absurd rfl hne
        all_goals
          simp [runEvents, check_prerequisites, forEachTool, checkTool, required_tools,
            M.catchAll, M.bind, M.pure, M.throw, echo, run_command, cosmicExec,
            cosmicDispatch, whichOut, okOut, hmiss]
    · have h1 : "kind" ∈ w.tools := hother "kind" (by decide) (by decide)
      have h3 : "kubectl" ∈ w.tools := hother "kubectl" (by decide) (by decide)
      have h4 : "helm" ∈ w.tools := hother "helm" (by decide) (by decide)
      refine ⟨?_, ?_, ?_⟩
      · simp [check_prerequisites, forEachTool, checkTool, required_tools, M.catchAll,
          M.bind, M.pure, M.throw, echo, run_command, cosmicExec, cosmicDispatch,
          whichOut, okOut, h1, hmiss]
      · simp [runEvents, check_prerequisites, forEachTool, checkTool, required_tools,
          M.catchAll, M.bind, M.pure, M.throw, echo, run_command, cosmicExec,
          cosmicDispatch, whichOut, okOut, h1, hmiss]
      · intro u hu hne
        simp only [required_tools, List.mem_cons, List.not_mem_nil, or_false] at hu
        rcases hu with rfl | rfl | rfl | rfl
        · simp [runEvents, check_prerequisites, forEachTool, checkTool, required_tools,
            M.catchAll, M.bind, M.pure, M.throw, echo, run_command, cosmicExec,
            cosmicDispatch, whichOut, okOut, h1, hmiss]
        · exact absurd rfl hne
        all_goals
          simp [runEvents, check_prerequisites, forEachTool, checkTool, required_tools,
            M.catchAll, M.bind, M.pure, M.throw, echo, run_command, cosmicExec,
            cosmicDispatch, whichOut, okOut, h1, hmiss]
    · have h1 : "kind" ∈ w.tools := hother "kind" (by decide) (by decide)
      have h2 : "docker" ∈ w.tools := hother "docker" (by decide) (by decide)
      have h4 : "helm" ∈ w.tools := hother "helm" (by decide) (by decide)
      refine ⟨?_, ?_, ?_⟩
      · simp [check_prerequisites, forEachTool, checkTool, required_tools, M.catchAll,
          M.bind, M.pure, M.throw, echo, run_command, cosmicExec, cosmicDispatch,
          whichOut, okOut, h1, h2, hmiss]
      · simp [runEvents, check_prerequisites, forEachTool, checkTool, required_tools,
          M.catchAll, M.bind, M.pure, M.throw, echo, run_command, cosmicExec,
          cosmicDispatch, whichOut, okOut, h1, h2, hmiss]
      · intro u hu hne
        simp only [required_tools, List.mem_cons, List.not_mem_nil, or_false] at hu
        rcases hu with rfl | rfl | rfl | rfl
        · simp [runEvents, check_prerequisites, forEachTool, checkTool, required_tools,
            M.catchAll, M.bind, M.pure, M.throw, echo, run_command, cosmicExec,
            cosmicDispatch, whichOut, okOut, h1, h2, hmiss]
        · simp [runEvents, check_prerequisites, forEachTool, checkTool, required_tools,
            M.catchAll, M.bind, M.pure, M.throw, echo, run_command, cosmicExec,
            cosmicDispatch, whichOut, okOut, h1, h2, hmiss]
        · exact absurd rfl hne
        · simp [runEvents, check_prerequisites, forEachTool, checkTool, required_tools,
            M.catchAll, M.bind, M.pure, M.throw, echo, run_command, cosmicExec,
            cosmicDispatch, whichOut, okOut, h1, h2, hmiss]
    · have h1 : "kind" ∈ w.tools := hother "kind" (by decide) (by decide)
      have h2 : "docker" ∈ w.tools := hother "docker" (by decide) (by decide)
      have h3 : "kubectl" ∈ w.tools := hother "kubectl" (by decide) (by decide)
      refine ⟨?_, ?_, ?_⟩
      · simp [check_prerequisites, forEachTool, checkTool, required_tools, M.catchAll,
          M.bind, M.pure, M.throw, echo, run_command, cosmicExec, cosmicDispatch,
          whichOut, okOut, h1, h2, h3, hmiss]
      · simp [runEvents, check_prerequisites, forEachTool, checkTool, required_tools,
          M.catchAll, M.bind, M.pure, M.throw, echo, run_command, cosmicExec,
          cosmicDispatch, whichOut, okOut, h1, h2, h3, hmiss]
      · intro u hu hne
        simp only [required_tools, List.mem_cons, List.not_mem_nil, or_false] at hu
        rcases hu with rfl | rfl | rfl | rfl
        · simp [runEvents, check_prerequisites, forEachTool, checkTool, required_tools,
            M.catchAll, M.bind, M.pure, M.throw, echo, run_command, cosmicExec,
            cosmicDispatch, whichOut, okOut, h1, h2, h3, hmiss]
        · simp [runEvents, check_prerequisites, forEachTool, checkTool, required_tools,
            M.catchAll, M.bind, M.pure, M.throw, echo, run_command, cosmicExec,
            cosmicDispatch, whichOut, okOut, h1, h2, h3, hmiss]
        · simp [runEvents, check_prerequisites, forEachTool, checkTool, required_tools,
            M.catchAll, M.bind, M.pure, M.throw, echo, run_command, cosmicExec,
            cosmicDispatch, whichOut, okOut, h1, h2, h3, hmiss]
        · exact absurd rfl hne

/-- Witness for C5: all tools present at the benign world, and exactly helm
missing at a world lacking it. -/
theorem c5_check_prerequisites_witness :
    ((∀ t ∈ required_tools, t ∈ wBase.tools) ∧
      (check_prerequisites cosmicExec wBase).1 = Except.ok ()) ∧
    (("helm" ∈ required_tools ∧ "helm" ∉ wC5.tools ∧
        (∀ u ∈ required_tools, u ≠ "helm" → u ∈ wC5.tools)) ∧
      ((check_prerequisites cosmicExec wC5).1 = Except.error PyErr.abort ∧
        Event.echo ("Error: " ++ "helm" ++ " is not installed or not in PATH") ∈
          runEvents (check_prerequisites cosmicExec wC5) ∧
        ∀ u ∈ required_tools, u ≠ "helm" →
          Event.echo ("Error: " ++ u ++ " is not installed or not in PATH") ∉
            runEvents (check_prerequisites cosmicExec wC5))) :=
  ⟨⟨by decide, (c5_check_prerequisites wBase).1 (by decide)⟩,
   ⟨⟨by decide, by decide, by decide⟩,
    (c5_check_prerequisites wC5).2 "helm" (by decide) (by decide) (by decide)⟩⟩

/-- Under the environment model, cleanup always completes without letting an
abort escape (all docker failures are inside its bare try/except) and never
touches the tool list. -/
theorem cleanup_eval_ok (w : World) (hk : "kind" ∈ w.tools) :
    (cleanup cosmicExec w).1 = Except.ok () ∧
      (cleanup cosmicExec w).2.1.tools = w.tools := by
  cases hreg : w.registry <;>
    cases hcl : isSubstring "kind" (String.intercalate "\n" w.clusters) <;>
      simp [cleanup, run_command, cosmicExec, cosmicDispatch, okOut, M.catchAll,
        M.bind, M.pure, M.throw, echo, inspectRunning, inspectRunningOut,
        inspectStoppedOut, hk, hreg, hcl]

/-- C8.  Cleanup is idempotent: for every external state (with the kind tool
on PATH so the cluster probe can run at all), running cleanup and then
immediately running it again produces no error on the second run — both
deletions are probe-guarded, so the second run finds nothing to delete. -/
theorem c8_cleanup_idempotent (w : World) (hk : "kind" ∈ w.tools) :
    runResult (cleanup cosmicExec (runWorld (cleanup cosmicExec w))) =
      Except.ok () := by
  have h1 := cleanup_eval_ok w hk
  have hk2 : "kind" ∈ (cleanup cosmicExec w).2.1.tools := by
    rw [h1.2]
    exact hk
  exact (cleanup_eval_ok ((cleanup cosmicExec w).2.1) hk2).1

/-- Witness for C8 at a world holding both a cluster and a running registry. -/
theorem c8_cleanup_idempotent_witness :
    "kind" ∈ wC8.tools ∧
      runResult (cleanup cosmicExec (runWorld (cleanup cosmicExec wC8))) =
        Except.ok () :=
  ⟨by decide, c8_cleanup_idempotent wC8 (by decide)⟩

/-- C9.  When no kind cluster is listed and the registry container does not
exist, cleanup succeeds with its completion message, runs exactly the two
read-only probes as external commands (zero mutating calls), and leaves the
external world unchanged. -/
theorem c9_cleanup_noop (w : World) (hk : "kind" ∈ w.tools)
    (hcl : isSubstring "kind" (String.intercalate "\n" w.clusters) = false)
    (hreg : w.registry = ContainerState.absent) :
    runResult (cleanup cosmicExec w) = Except.ok () ∧
      Event.echo "✅ Cleanup completed!" ∈ runEvents (cleanup cosmicExec w) ∧
      execCmds (runEvents (cleanup cosmicExec w)) =
        [cmdGetClusters, cmdInspectRegistry] ∧
      runWorld (cleanup cosmicExec w) = w := by
  simp [cleanup, run_command, cosmicExec, cosmicDispatch, okOut, M.catchAll,
    M.bind, M.pure, M.throw, echo, inspectRunning, inspectRunningOut,
    inspectStoppedOut, execCmds, runResult, runEvents, runWorld, hk, hcl, hreg]

/-- Witness for C9 at the benign world (no cluster, no registry container). -/
theorem c9_cleanup_noop_witness :
    ("kind" ∈ wBase.tools ∧
      isSubstring "kind" (String.intercalate "\n" wBase.clusters) = false ∧
      wBase.registry = ContainerState.absent) ∧
    (runResult (cleanup cosmicExec wBase) = Except.ok () ∧
      Event.echo "✅ Cleanup completed!" ∈ runEvents (cleanup cosmicExec wBase) ∧
      execCmds (runEvents (cleanup cosmicExec wBase)) =
        [cmdGetClusters, cmdInspectRegistry] ∧
      runWorld (cleanup cosmicExec wBase) = wBase) :=
  ⟨⟨by decide, by decide, by decide⟩,
   c9_cleanup_noop wBase (by decide) (by decide) (by decide)⟩

/-- C10.  If the registry container exists but is not running, cleanup
issues neither the stop nor the remove command and the stopped container
survives cleanup in the same state. -/
theorem c10_stopped_registry_untouched (w : World)
    (hreg : w.registry = ContainerState.stopped) :
    Event.exec cmdStopRegistry false ∉ runEvents (cleanup cosmicExec w) ∧
      Event.exec cmdRmRegistry false ∉ runEvents (cleanup cosmicExec w) ∧
      (runWorld (cleanup cosmicExec w)).registry = ContainerState.stopped := by
  by_cases hk : "kind" ∈ w.tools
  · cases hcl : isSubstring "kind" (String.intercalate "\n" w.clusters) <;>
      simp [cleanup, run_command, cosmicExec, cosmicDispatch, okOut, M.catchAll,
        M.bind, M.pure, M.throw, echo, inspectRunning, inspectRunningOut,
        inspectStoppedOut, runEvents, runWorld, hk, hcl, hreg]
  · simp [cleanup, run_command, cosmicExec, cosmicDispatch, okOut, M.catchAll,
      M.bind, M.pure, M.throw, echo, runEvents, runWorld, hk, hreg]

/-- Witness for C10 at the stopped-registry world. -/
theorem c10_stopped_registry_untouched_witness :
    wStopped.registry = ContainerState.stopped ∧
      (Event.exec cmdStopRegistry false ∉ runEvents (cleanup cosmicExec wStopped) ∧
        Event.exec cmdRmRegistry false ∉ runEvents (cleanup cosmicExec wStopped) ∧
        (runWorld (cleanup cosmicExec wStopped)).registry = ContainerState.stopped) :=
  ⟨by decide, c10_stopped_registry_untouched wStopped (by decide)⟩

theorem append_take_ne {pre x c : String}
    (h : c.data.take pre.data.length ≠ pre.data) : pre ++ x ≠ c := by
  intro he
  apply h
  rw [← he, String.data_append, List.take_left]

theorem cmdNodeMkdir_not_special (node : String) :
    cmdNodeMkdir node ∉ specialCmds := by
  intro h
  simp only [specialCmds, List.mem_cons, List.not_mem_nil, or_false] at h
  rcases h with h|h|h|h|h|h|h|h|h|h|h|h|h|h|h|h <;>
    exact append_take_ne (by decide) h

theorem cmdNodeTee_not_special (node : String) :
    cmdNodeTee node ∉ specialCmds := by
  intro h
  simp only [specialCmds, List.mem_cons, List.not_mem_nil, or_false] at h
  rcases h with h|h|h|h|h|h|h|h|h|h|h|h|h|h|h|h <;>
    exact append_take_ne (by decide) h

/-- Commands the environment model does not interpret specially succeed with
empty output and leave the world unchanged. -/
theorem cosmicExec_default {cmd : String} (h : cmd ∉ specialCmds)
    (sh : Bool) (w : World) : cosmicExec cmd sh w = (okOut, w) := by
  simp only [cosmicExec]
  rw [if_neg h]

theorem run_command_default {cmd : String} (h : cmd ∉ specialCmds)
    (sh : Bool) (w : World) :
    run_command cosmicExec cmd sh w =
      (Except.ok { stdout := "", stderr := "" }, w, [Event.exec cmd sh]) := by
  simp [run_command, cosmicExec_default h, okOut]

/-- The per-node configuration loop of configure_registry always succeeds,
changes nothing in the modelled world, and only executes node commands. -/
theorem configureNodes_eval (ns : List String) : ∀ (w : World),
    configureNodes cosmicExec ns w = (Except.ok (), w, nodeEvents ns) := by
  induction ns with
  | nil =>
    intro w
    rfl
  | cons n rest ih =>
    intro w
    simp [configureNodes, configureNode, M.bind, nodeEvents,
      run_command_default (cmdNodeMkdir_not_special n),
      run_command_default (cmdNodeTee_not_special n), ih]

theorem nodeEvents_no_starts (ns : List String) :
    (nodeEvents ns).filter isStart = [] := by
  induction ns with
  | nil => rfl
  | cons n rest ih => simp [nodeEvents, isStart, ih]

/-- C6.  During configure_registry, if the network-connect sub-action fails
(the registry is already connected), the step does not abort: the
already-connected notice is printed, and the subsequent sub-actions — writing
the registry-hosting config document and applying it to the cluster — still
run; the step completes successfully. -/
theorem c6_network_connect_swallowed (w : World)
    (hconn : w.networkConnected = true) :
    runResult (configure_registry cosmicExec w) = Except.ok () ∧
      Event.exec cmdNetworkConnect true ∈
        runEvents (configure_registry cosmicExec w) ∧
      Event.echo "Registry already connected to network" ∈
        runEvents (configure_registry cosmicExec w) ∧
      Event.write "registry-config.yaml" ∈
        runEvents (configure_registry cosmicExec w) ∧
      Event.exec cmdApplyRegistryConfig false ∈
        runEvents (configure_registry cosmicExec w) := by
  simp [configure_registry, run_command, cosmicExec, cosmicDispatch, okOut,
    M.catchAll, M.bind, echo, writeLocalFile, configureNodes_eval, hconn,
    runResult, runEvents]

/-- Witness for C6 at a world whose registry is already connected. -/
theorem c6_network_connect_swallowed_witness :
    wC6.networkConnected = true ∧
      (runResult (configure_registry cosmicExec wC6) = Except.ok () ∧
        Event.exec cmdNetworkConnect true ∈
          runEvents (configure_registry cosmicExec wC6) ∧
        Event.echo "Registry already connected to network" ∈
          runEvents (configure_registry cosmicExec wC6) ∧
        Event.write "registry-config.yaml" ∈
          runEvents (configure_registry cosmicExec wC6) ∧
        Event.exec cmdApplyRegistryConfig false ∈
          runEvents (configure_registry cosmicExec wC6)) :=
  ⟨by decide, c6_network_connect_swallowed wC6 (by decide)⟩

theorem check_eval (w : World) (h1 : "kind" ∈ w.tools) (h2 : "docker" ∈ w.tools)
    (h3 : "kubectl" ∈ w.tools) (h4 : "helm" ∈ w.tools) :
    check cosmicExec w = (Except.ok (), w, evCheck) := by
  simp [evCheck, check, check_prerequisites, forEachTool, checkTool, required_tools,
    M.catchAbort, M.catchAll, M.bind, echo, run_command, cosmicExec,
    cosmicDispatch, whichOut, okOut, h1, h2, h3, h4]

theorem setup_registry_eval (w : World)
    (hreg : w.registry = ContainerState.absent) :
    setup_registry cosmicExec w =
      (Except.ok (), { w with registry := ContainerState.running }, evSetupReg) := by
  simp [evSetupReg, setup_registry, run_command, cosmicExec, cosmicDispatch, okOut, M.bind,
    echo, hreg]

theorem create_cluster_eval (w : World) :
    create_cluster cosmicExec w =
      (Except.ok (), { w with clusters := "kind" :: w.clusters },
       evCreateCluster) := by
  simp [evCreateCluster, create_cluster, run_command, cosmicExec, cosmicDispatch, okOut, M.bind,
    echo, writeLocalFile]

theorem install_cilium_eval (w : World) :
    install_cilium cosmicExec w =
      (Except.ok (), w, evCilium) := by
  simp [evCilium, install_cilium, run_command, cosmicExec, cosmicDispatch, okOut, M.bind,
    echo]

theorem install_multus_eval (w : World) :
    install_multus cosmicExec w =
      (Except.ok (), w, evMultus) := by
  simp [evMultus, install_multus, run_command, cosmicExec, cosmicDispatch, okOut, M.bind,
    echo]

theorem verify_eval (w : World) :
    verify cosmicExec w =
      (Except.ok (), w, evVerify) := by
  simp [evVerify, verify, run_command, cosmicExec, cosmicDispatch, okOut, M.bind, echo]

theorem cleanup_eval_c3 (w : World) (hk : "kind" ∈ w.tools)
    (hreg : w.registry ≠ ContainerState.stopped) :
    ∃ cl evs,
      cleanup cosmicExec w =
        (Except.ok (), { w with clusters := cl, registry := ContainerState.absent },
         evs) ∧
      evs.filter isStart = [] := by
  obtain ⟨tl, cl0, rg, nc, nss, nd, sec⟩ := w
  cases rg with
  | stopped => exact absurd rfl hreg
  | absent =>
    cases hcl : isSubstring "kind" (String.intercalate "\n" cl0) with
    | false =>
      refine ⟨cl0,
        [Event.exec cmdGetClusters false, Event.exec cmdInspectRegistry false,
         Event.echo "Error executing command: docker inspect kind-registry",
         Event.echo "Error output: Error: No such object: kind-registry",
         Event.echo "✅ Cleanup completed!"], ?_, by decide⟩
      simp [cleanup, run_command, cosmicExec, cosmicDispatch, okOut, M.catchAll,
        M.bind, M.pure, echo, inspectRunning, inspectRunningOut,
        inspectStoppedOut, hk, hcl]
    | true =>
      refine ⟨cl0.erase "kind",
        [Event.exec cmdGetClusters false,
         Event.echo "Deleting existing Kind cluster \x27kind\x27...",
         Event.exec cmdDeleteCluster false, Event.exec cmdInspectRegistry false,
         Event.echo "Error executing command: docker inspect kind-registry",
         Event.echo "Error output: Error: No such object: kind-registry",
         Event.echo "✅ Cleanup completed!"], ?_, by decide⟩
      simp [cleanup, run_command, cosmicExec, cosmicDispatch, okOut, M.catchAll,
        M.bind, M.pure, echo, inspectRunning, inspectRunningOut,
        inspectStoppedOut, hk, hcl]
  | running =>
    cases hcl : isSubstring "kind" (String.intercalate "\n" cl0) with
    | false =>
      refine ⟨cl0,
        [Event.exec cmdGetClusters false, Event.exec cmdInspectRegistry false,
         Event.echo "Deleting existing registry container \x27kind-registry\x27...",
         Event.exec cmdStopRegistry false, Event.exec cmdRmRegistry false,
         Event.echo "✅ Cleanup completed!"], ?_, by decide⟩
      simp [cleanup, run_command, cosmicExec, cosmicDispatch, okOut, M.catchAll,
        M.bind, M.pure, echo, inspectRunning, inspectRunningOut,
        inspectStoppedOut, hk, hcl]
    | true =>
      refine ⟨cl0.erase "kind",
        [Event.exec cmdGetClusters false,
         Event.echo "Deleting existing Kind cluster \x27kind\x27...",
         Event.exec cmdDeleteCluster false, Event.exec cmdInspectRegistry false,
         Event.echo "Deleting existing registry container \x27kind-registry\x27...",
         Event.exec cmdStopRegistry false, Event.exec cmdRmRegistry false,
         Event.echo "✅ Cleanup completed!"], ?_, by decide⟩
      simp [cleanup, run_command, cosmicExec, cosmicDispatch, okOut, M.catchAll,
        M.bind, M.pure, echo, inspectRunning, inspectRunningOut,
        inspectStoppedOut, hk, hcl]

theorem configure_registry_eval (w : World) :
    ∃ evs,
      configure_registry cosmicExec w =
        (Except.ok (), { w with networkConnected := true }, evs) ∧
      evs.filter isStart = [] := by
  obtain ⟨tl, cl0, rg, nc, nss, nd, sec⟩ := w
  cases nc with
  | false =>
    refine ⟨[Event.echo "Configuring registry in the cluster...",
        Event.exec cmdGetNodes false] ++
        nodeEvents (nd.trim.splitOn "\n") ++
        [Event.exec cmdNetworkConnect true, Event.write "registry-config.yaml",
         Event.exec cmdApplyRegistryConfig false,
         Event.echo "✅ Registry configured successfully!"], ?_, ?_⟩
    · simp [configure_registry, run_command, cosmicExec, cosmicDispatch, okOut,
        M.catchAll, M.bind, M.pure, echo, writeLocalFile, configureNodes_eval]
    · rw [List.filter_append, List.filter_append, nodeEvents_no_starts]
      decide
  | true =>
    refine ⟨[Event.echo "Configuring registry in the cluster...",
        Event.exec cmdGetNodes false] ++
        nodeEvents (nd.trim.splitOn "\n") ++
        [Event.exec cmdNetworkConnect true,
         Event.echo "Error executing command: docker network connect kind kind-registry",
         Event.echo "Error output: endpoint with name kind-registry already exists in network kind",
         Event.echo "Registry already connected to network",
         Event.write "registry-config.yaml",
         Event.exec cmdApplyRegistryConfig false,
         Event.echo "✅ Registry configured successfully!"], ?_, ?_⟩
    · simp [configure_registry, run_command, cosmicExec, cosmicDispatch, okOut,
        M.catchAll, M.bind, M.pure, echo, writeLocalFile, configureNodes_eval]
    · rw [List.filter_append, List.filter_append, nodeEvents_no_starts]
      decide

/-- The orchestration loop itself is sound: run over the plain step
callbacks (the design §4.5 of the spec describes), with all four tools on
PATH and no leftover stopped registry container it completes and announces
exactly the eight steps in the fixed order.  The defect recorded for C1/C3
is therefore confined to what cli.py binds the step names to: click.Command
objects instead of these callbacks. -/
theorem callbacks_pipeline_order (w : World)
    (h1 : "kind" ∈ w.tools) (h2 : "docker" ∈ w.tools)
    (h3 : "kubectl" ∈ w.tools) (h4 : "helm" ∈ w.tools)
    (hreg : w.registry ≠ ContainerState.stopped) :
    runResult (setup_all_loop (pipelineCallbacks cosmicExec) w) = Except.ok () ∧
      Event.echo completeText ∈ runEvents (setup_all_loop (pipelineCallbacks cosmicExec) w) ∧
      startEvents (runEvents (setup_all_loop (pipelineCallbacks cosmicExec) w)) =
        pipelineNames.map (fun n => Event.echo (startText n)) := by
  obtain ⟨cl, evClean, hClean, hCleanF⟩ := cleanup_eval_c3 w h1 hreg
  have e1 := check_eval w h1 h2 h3 h4
  set w2 : World := { w with clusters := cl, registry := ContainerState.absent }
    with hw2
  have e3 := setup_registry_eval w2 (by rw [hw2])
  set w3 : World := { w2 with registry := ContainerState.running } with hw3
  have e4 := create_cluster_eval w3
  set w4 : World := { w3 with clusters := "kind" :: w3.clusters } with hw4
  obtain ⟨evCfg, hCfg, hCfgF⟩ := configure_registry_eval w4
  set w5 : World := { w4 with networkConnected := true } with hw5
  have e6 := install_cilium_eval w5
  have e7 := install_multus_eval w5
  have e8 := verify_eval w5
  have e9 : setup_all_loop [] w5 = (Except.ok (), w5, [Event.echo completeText]) := rfl
  have hmain : setup_all_loop (pipelineCallbacks cosmicExec) w =
      (Except.ok (), w5,
       Event.echo (startText "Prerequisites Check") :: (evCheck ++
        (Event.echo (startText "Cleanup") :: (evClean ++
         (Event.echo (startText "Setup Registry") :: (evSetupReg ++
          (Event.echo (startText "Create Cluster") :: (evCreateCluster ++
           (Event.echo (startText "Configure Registry") :: (evCfg ++
            (Event.echo (startText "Install Cilium") :: (evCilium ++
             (Event.echo (startText "Install Multus") :: (evMultus ++
              (Event.echo (startText "Verify Installation") :: (evVerify ++
               [Event.echo completeText])))))))))))))))) := by
    simp only [pipelineCallbacks]
    rw [setup_all_loop_cons_ok e1, setup_all_loop_cons_ok hClean,
      setup_all_loop_cons_ok e3, setup_all_loop_cons_ok e4,
      setup_all_loop_cons_ok hCfg, setup_all_loop_cons_ok e6,
      setup_all_loop_cons_ok e7, setup_all_loop_cons_ok e8, e9]
  have m0 : isStart (Event.echo completeText) = false := by decide
  have m1 : isStart (Event.echo (startText "Prerequisites Check")) = true := by decide
  have m2 : isStart (Event.echo (startText "Cleanup")) = true := by decide
  have m3 : isStart (Event.echo (startText "Setup Registry")) = true := by decide
  have m4 : isStart (Event.echo (startText "Create Cluster")) = true := by decide
  have m5 : isStart (Event.echo (startText "Configure Registry")) = true := by decide
  have m6 : isStart (Event.echo (startText "Install Cilium")) = true := by decide
  have m7 : isStart (Event.echo (startText "Install Multus")) = true := by decide
  have m8 : isStart (Event.echo (startText "Verify Installation")) = true := by decide
  have f1 : evCheck.filter isStart = [] := by decide
  have f3 : evSetupReg.filter isStart = [] := by decide
  have f4 : evCreateCluster.filter isStart = [] := by decide
  have f6 : evCilium.filter isStart = [] := by decide
  have f7 : evMultus.filter isStart = [] := by decide
  have f8 : evVerify.filter isStart = [] := by decide
  refine ⟨?_, ?_, ?_⟩
  · simp [hmain, runResult]
  · simp [hmain, runEvents]
  · rw [hmain]
    simp only [startEvents, runEvents, List.filter_cons, List.filter_append,
      hCleanF, hCfgF, f1, f3, f4, f6, f7, f8, m0, m1, m2, m3, m4, m5, m6, m7, m8,
      if_true, if_false, List.nil_append, List.append_nil, List.filter_nil]
    simp [pipelineNames]


/-- C3 (code bug).  A real `cosmic setup-all` run has sys.argv[1:] =
["setup-all"].  Each command() in setup_all's loop invokes a click.Command,
i.e. Command.main, which re-parses that argv; the zero-argument check
command rejects the leftover "setup-all" token, prints a usage error and
raises SystemExit(2) during the first loop iteration — for every executor
and every world.  No step body ever executes (not even the first which
probe) and no step after the first is announced, so the pipeline never runs
the eight steps in order on any input. -/
theorem c3_setup_all_exits_first_step :
    (∀ (E : Exec) (w : World),
      setup_all E ["setup-all"] w =
        (Except.error (PyErr.systemExit 2), w,
         [Event.echo (startText "Prerequisites Check"),
          Event.echo (usageErrorText ["setup-all"])])) ∧
      Event.echo (startText "Cleanup") ∉
        runEvents (setup_all cosmicExec ["setup-all"] wBase) ∧
      Event.exec (cmdWhich "kind") false ∉
        runEvents (setup_all cosmicExec ["setup-all"] wBase) ∧
      Event.echo completeText ∉
        runEvents (setup_all cosmicExec ["setup-all"] wBase) := by
  refine ⟨fun E w => rfl, by decide, by decide, by decide⟩

/-- C1 (code bug).  Injecting a failure at any step k never yields the
claimed halt-and-report behavior, because execution dies inside the first
command() invocation.  At wNoKind (the kind tool missing — a failure
injected at position 0) the run exits with SystemExit(2) before
check_prerequisites ever runs: the prerequisites-failure message is never
printed, Cleanup is never announced, and no "Setup failed during <step>"
report is ever emitted for any step name; the same absence of a report
holds at wStopped (a failure injected at the Setup Registry step). -/
theorem c1_setup_all_never_reports :
    runResult (setup_all cosmicExec ["setup-all"] wNoKind) =
        Except.error (PyErr.systemExit 2) ∧
      Event.echo "❌ Prerequisites check failed" ∉
        runEvents (setup_all cosmicExec ["setup-all"] wNoKind) ∧
      Event.echo (startText "Cleanup") ∉
        runEvents (setup_all cosmicExec ["setup-all"] wNoKind) ∧
      (∀ n ∈ pipelineNames,
        Event.echo (failText n) ∉
          runEvents (setup_all cosmicExec ["setup-all"] wNoKind)) ∧
      (∀ n ∈ pipelineNames,
        Event.echo (failText n) ∉
          runEvents (setup_all cosmicExec ["setup-all"] wStopped)) := by
  refine ⟨rfl, by decide, by decide, by decide, by decide⟩
